import Mathlib

/-!
Verification of the MOV-report chunked-extraction pipeline.

Shallow embedding of the data model (`src/models.py`), the extraction
orchestrator (`src/extraction/chunked_extractor.py`), the post-hoc validator
(`src/extraction/validator.py`) and the SQLite report store
(`src/database/sqlite_db.py`).

Conventions of the embedding:
* Python `Optional[str]` becomes `Option String`; Python truthiness of such a
  value (`if header_data.get("visit_start_date"):`) is `truthy` below, which is
  false for both `None` and the empty string.
* JSON integers become `Int` (or `Nat` where the source validates
  non-negativity), floats become `Rat`.
* Pydantic model construction (which validates and raises `ValidationError`)
  becomes an `Except String` smart constructor.  Pydantic v2 copies list
  fields during validation, so a constructed model holds a snapshot of any
  list passed to it; the functional embedding reflects this automatically.
* `datetime` values are carried as their ISO strings.
* Python's `list.sort` is a stable sort; it is modelled with
  `List.insertionSort`, which is also stable and therefore computes the same
  list.
-/

/-- Allowed answer values (`AnswerType` in `models.py`). -/
inductive AnswerType where
  | yes
  | no
  | na
  | nr
deriving DecidableEq

/-- JSON string of an answer value. -/
def AnswerType.value : AnswerType → String
  | .yes => "Yes"
  | .no => "No"
  | .na => "N/A"
  | .nr => "NR"

/-- Models the Python enum call `AnswerType(s)`: `none` when `s` names no member. -/
def AnswerType.ofString? (s : String) : Option AnswerType :=
  if s = "Yes" then some .yes
  else if s = "No" then some .no
  else if s = "N/A" then some .na
  else if s = "NR" then some .nr
  else none

/-- Types of monitoring visits (`VisitType` in `models.py`). -/
inductive VisitType where
  | sivMov
  | imvMov
  | covMov
deriving DecidableEq

/-- JSON string of a visit type. -/
def VisitType.value : VisitType → String
  | .sivMov => "SIV MOV"
  | .imvMov => "IMV MOV"
  | .covMov => "COV MOV"

/-- Models the Python enum call `VisitType(s)`: `none` models the `ValueError`. -/
def VisitType.ofString? (s : String) : Option VisitType :=
  if s = "SIV MOV" then some .sivMov
  else if s = "IMV MOV" then some .imvMov
  else if s = "COV MOV" then some .covMov
  else none

/-- Sentiment assessment (`SentimentType` in `models.py`). -/
inductive SentimentType where
  | positive
  | negative
  | neutral
  | unknown
deriving DecidableEq

/-- JSON string of a sentiment value. -/
def SentimentType.value : SentimentType → String
  | .positive => "Positive"
  | .negative => "Negative"
  | .neutral => "Neutral"
  | .unknown => "Unknown"

/-- Models the Python enum call `SentimentType(s)`. -/
def SentimentType.ofString? (s : String) : Option SentimentType :=
  if s = "Positive" then some .positive
  else if s = "Negative" then some .negative
  else if s = "Neutral" then some .neutral
  else if s = "Unknown" then some .unknown
  else none

/-- Site identification (`SiteInfo` in `models.py`), after validation. -/
structure SiteInfo where
  site_number : String
  country : String
  institution : String
  pi_first_name : String
  pi_last_name : String
  city : Option String
  anthos_staff : String
  cra_name : Option String
deriving DecidableEq

/-- Raw site data as returned by the header extractor (`header_data["site_info"]`
in `chunked_extractor.py`): `site_number` may be absent (`null`). -/
structure SiteInfoData where
  site_number : Option String
  country : String
  institution : String
  pi_first_name : String
  pi_last_name : String
  city : Option String
  anthos_staff : String
  cra_name : Option String
deriving DecidableEq

/-- Recruitment counters (`RecruitmentStats` in `models.py`).  JSON integers,
so `Int`; the `ge=0` bounds are checked by `recruitmentOk`. -/
structure RecruitmentStats where
  screened : Int
  screen_failures : Int
  randomized_enrolled : Int
  early_discontinued : Int
  completed_treatment : Int
  completed_study : Int
deriving DecidableEq

/-- Question response (`QuestionResponse` in `models.py`).  The field bounds
(`ge=1 le=85`, `max_length`, confidence in `[0,1]`) are checked by
`questionOk`. -/
structure QuestionResponse where
  question_number : Nat
  question_text : String
  answer : AnswerType
  sentiment : SentimentType
  narrative_summary : Option String
  key_finding : Option String
  evidence : Option String
  confidence : Rat
deriving DecidableEq

/-- Action item (`ActionItem` in `models.py`). -/
structure ActionItem where
  item_number : Nat
  description : String
  action_to_be_taken : String
  responsible : String
  due_date : String
  status : Option String
deriving DecidableEq

/-- Risk assessment (`RiskAssessment` in `models.py`). -/
structure RiskAssessment where
  site_level_risks_identified : Bool
  cra_level_risks_identified : Bool
  impact_country_level : Bool
  impact_study_level : Bool
  narrative : String
deriving DecidableEq

/-- Data-quality flags (`DataQualityFlags` in `models.py`). -/
structure DataQualityFlags where
  fields_missing : List String
  fields_invalid : List String
  completeness_score : Rat
  requires_review : Bool
  review_reason : Option String
deriving DecidableEq

/-- Complete MOV report (`MOVReport` in `models.py`).  `extraction_timestamp`
is carried as its ISO string. -/
structure MOVReport where
  protocol_number : String
  site_info : SiteInfo
  visit_start_date : Option String
  visit_end_date : Option String
  visit_type : Option VisitType
  recruitment_stats : RecruitmentStats
  question_responses : List QuestionResponse
  action_items : List ActionItem
  risk_assessment : RiskAssessment
  overall_site_quality : Option String
  key_concerns : List String
  key_strengths : List String
  data_quality : DataQualityFlags
  extraction_timestamp : String
  llm_model : String
  extraction_method : String
  source_file : String
deriving DecidableEq

/-- Python truthiness of an `Optional[str]`: `None` and `""` are falsy. -/
def truthy : Option String → Bool
  | none => false
  | some s => !s.isEmpty

/-- Python `str.isdigit` (restricted to ASCII digits, the only case the source
exercises): true iff the string is non-empty and all characters are digits. -/
def isDigitStr (s : String) : Bool :=
  !s.isEmpty && s.toList.all Char.isDigit

/-- The `validate_site_number` field validator of `SiteInfo`: six digits. -/
def siteNumberOk (s : String) : Bool :=
  isDigitStr s && s.length == 6

/-- The `ge=0` bounds of `RecruitmentStats`. -/
def recruitmentOk (r : RecruitmentStats) : Bool :=
  0 ≤ r.screened && 0 ≤ r.screen_failures && 0 ≤ r.randomized_enrolled &&
  0 ≤ r.early_discontinued && 0 ≤ r.completed_treatment && 0 ≤ r.completed_study

/-- Field bounds of `QuestionResponse`: `question_number` in 1..85,
`confidence` in `[0,1]`, and the `max_length` bounds on the optional texts. -/
def questionOk (q : QuestionResponse) : Bool :=
  1 ≤ q.question_number && q.question_number ≤ 85 &&
  0 ≤ q.confidence && q.confidence ≤ 1 &&
  (q.narrative_summary.getD "").length ≤ 500 &&
  (q.key_finding.getD "").length ≤ 200 &&
  (q.evidence.getD "").length ≤ 400

/-- Field bound of `ActionItem`: `item_number ≥ 1`. -/
def actionItemOk (a : ActionItem) : Bool :=
  1 ≤ a.item_number

/-- A character of the regex class `[\w\-]` (ASCII fragment of `\w`, which is
all the source data contains). -/
def wordChar (c : Char) : Bool :=
  c.isAlphanum || c = '_' || c = '-'

/-- One position of the search for `MOVReport`'s `protocol_number` pattern
`Protocol (?:ANT-)?[\w\-]+`: since every character of `ANT-` is itself in
`[\w\-]`, the optional group is subsumed and the pattern matches at a position
iff the literal `Protocol ` is followed by at least one `[\w\-]` character. -/
def protocolAt : List Char → Bool
  | 'P' :: 'r' :: 'o' :: 't' :: 'o' :: 'c' :: 'o' :: 'l' :: ' ' :: c :: _ => wordChar c
  | _ => false

/-- Unanchored regex search for `protocolAt` (the pattern may match anywhere). -/
def protocolSearch : List Char → Bool
  | [] => false
  | c :: rest => protocolAt (c :: rest) || protocolSearch rest

/-- The `pattern` constraint of `MOVReport.protocol_number`. -/
def protocolOk (s : String) : Bool :=
  protocolSearch s.toList

/-- The `Literal` constraint of `MOVReport.overall_site_quality`. -/
def qualityOk : Option String → Bool
  | none => true
  | some s =>
    s = "Excellent" || s = "Good" || s = "Adequate" ||
    s = "Needs Improvement" || s = "Poor"

/-- Construction of `DataQualityFlags(...)`, validating
`completeness_score` against its `ge=0.0, le=1.0` bounds.  The list arguments
are snapshots: pydantic v2 copies list fields during validation, so later
mutation of the caller's list is not observed by the constructed model. -/
def mkDataQualityFlags (missing invalid : List String) (score : Rat)
    (review : Bool) (reason : Option String) : Except String DataQualityFlags :=
  if 0 ≤ score ∧ score ≤ 1 then
    .ok ⟨missing, invalid, score, review, reason⟩
  else
    .error "completeness_score out of range"

/-- Construction of `MOVReport(...)` (with its nested `SiteInfo(...)`),
modelling the pydantic validations that the orchestrator's inputs can actually
violate.  Any failure models a raised `ValidationError`. -/
def mkMOVReport (protocol : String) (si : SiteInfo) (vsd ved : Option String)
    (vt : Option VisitType) (rs : RecruitmentStats)
    (qs : List QuestionResponse) (ai : List ActionItem) (ra : RiskAssessment)
    (quality : Option String) (concerns strengths : List String)
    (dq : DataQualityFlags) (ts llmModel method srcFile : String) :
    Except String MOVReport :=
  if ¬ protocolOk protocol then .error "protocol_number: pattern mismatch"
  else if ¬ siteNumberOk si.site_number then .error "Site number must be 6 digits"
  else if ¬ recruitmentOk rs then .error "recruitment_stats: negative counter"
  else if qs.isEmpty then .error "question_responses: list should have at least 1 item"
  else if ¬ qs.all questionOk then .error "question_responses: invalid item"
  else if ¬ ai.all actionItemOk then .error "action_items: invalid item"
  else if ¬ qualityOk quality then .error "overall_site_quality: invalid literal"
  else if 10 < concerns.length ∨ 10 < strengths.length then .error "key lists too long"
  else .ok
    { protocol_number := protocol
      site_info := si
      visit_start_date := vsd
      visit_end_date := ved
      visit_type := vt
      recruitment_stats := rs
      question_responses := qs
      action_items := ai
      risk_assessment := ra
      overall_site_quality := quality
      key_concerns := concerns
      key_strengths := strengths
      data_quality := dq
      extraction_timestamp := ts
      llm_model := llmModel
      extraction_method := method
      source_file := srcFile }

/-- Header data as parsed from the header extractor's JSON reply
(`_extract_header` in `chunked_extractor.py`). -/
structure HeaderData where
  protocol_number : String
  site_info : SiteInfoData
  visit_start_date : Option String
  visit_end_date : Option String
  visit_type : Option String
  recruitment_stats : RecruitmentStats
deriving DecidableEq

/-- Assessment data as parsed from the risk/assessment extractor's JSON reply
(`_extract_assessment` in `chunked_extractor.py`). -/
structure AssessmentData where
  risk_assessment : RiskAssessment
  overall_site_quality : Option String
  key_concerns : List String
  key_strengths : List String
deriving DecidableEq

/-- The `visit_type_value` computed by `extract_report_chunked`: `none` when
the header field is falsy or names no `VisitType` member. -/
def visitTypeValue (h : HeaderData) : Option VisitType :=
  match h.visit_type with
  | none => none
  | some s => if s.isEmpty then none else VisitType.ofString? s

/-- The `fields_invalid` list of `extract_report_chunked`: `visit_type` was
present (truthy) but `VisitType(...)` raised. -/
def fieldsInvalid0 (h : HeaderData) : List String :=
  match h.visit_type with
  | none => []
  | some s => if !s.isEmpty ∧ VisitType.ofString? s = none then ["visit_type"] else []

/-- The `fields_missing` list of `extract_report_chunked` as it stands when
`DataQualityFlags` is constructed (the later site-number appends come after
that construction). -/
def fieldsMissing0 (h : HeaderData) : List String :=
  (if truthy h.visit_type then [] else ["visit_type"]) ++
  (if truthy h.visit_start_date then [] else ["visit_start_date"]) ++
  (if truthy h.visit_end_date then [] else ["visit_end_date"])

/-- The `expected_fields` list of `extract_report_chunked` (only its length is
ever used; `overall_site_quality` is never itself checked for absence). -/
def expectedFields : List String :=
  ["visit_type", "visit_start_date", "visit_end_date", "overall_site_quality"]

/-- `total_fields = len(expected_fields) + 85`. -/
def totalFields : Nat := expectedFields.length + 85

/-- `missing_count = len(fields_missing) + (85 - len(questions))` (Python int
arithmetic: negative when more than 85 questions arrived). -/
def missingCount (h : HeaderData) (qs : List QuestionResponse) : Int :=
  (fieldsMissing0 h).length + (85 - (qs.length : Int))

/-- `completeness = max(0.0, 1.0 - missing_count / total_fields)`. -/
def completenessRaw (h : HeaderData) (qs : List QuestionResponse) : Rat :=
  max 0 (1 - (missingCount h qs : Rat) / (totalFields : Rat))

/-- Python `round(x, 3)`.  Python rounds half to even; on the values this
pipeline produces (denominator dividing 89) an exact tie is impossible, so
rounding half up computes the same result. -/
def round3 (q : Rat) : Rat :=
  (Rat.floor (q * 1000 + 1/2) : Rat) / 1000

/-- The `completeness_score` stored in the data-quality flags:
`round(completeness, 3)`. -/
def completenessScore (h : HeaderData) (qs : List QuestionResponse) : Rat :=
  round3 (completenessRaw h qs)

/-- The `requires_review` disjunction of `extract_report_chunked`. -/
def requiresReview (h : HeaderData) (qs : List QuestionResponse) : Bool :=
  decide (qs.length < 70) ||
  (visitTypeValue h).isNone ||
  !truthy h.visit_start_date ||
  !truthy h.visit_end_date ||
  decide (0 < (fieldsInvalid0 h).length)

/-- The `review_reasons` list of `extract_report_chunked`, in append order. -/
def reviewReasons (h : HeaderData) (qs : List QuestionResponse) : List String :=
  (if qs.length < 70 then
    ["Only " ++ toString qs.length ++ "/85 questions extracted"] else []) ++
  (if (visitTypeValue h).isNone then ["Visit type not specified"] else []) ++
  (if ¬ truthy h.visit_start_date then ["Visit start date missing"] else []) ++
  (if ¬ truthy h.visit_end_date then ["Visit end date missing"] else []) ++
  (if fieldsInvalid0 h ≠ [] then
    ["Invalid fields: " ++ String.intercalate ", " (fieldsInvalid0 h)] else [])

/-- `review_reason = "; ".join(review_reasons) if review_reasons else None`. -/
def reviewReason (h : HeaderData) (qs : List QuestionResponse) : Option String :=
  if reviewReasons h qs = [] then none
  else some (String.intercalate "; " (reviewReasons h qs))

/-- Leftmost match of the regex `_(\d{6})_` (`re.search` in
`extract_report_chunked`): an underscore, exactly six digits, an underscore;
returns the captured digit group. -/
def siteSearch : List Char → Option String
  | [] => none
  | c :: rest =>
    match c, rest with
    | '_', c1 :: c2 :: c3 :: c4 :: c5 :: c6 :: '_' :: _ =>
      if c1.isDigit && c2.isDigit && c3.isDigit && c4.isDigit &&
         c5.isDigit && c6.isDigit then
        some (String.mk [c1, c2, c3, c4, c5, c6])
      else siteSearch rest
    | _, _ => siteSearch rest

/-- `re.search(r'_(\d{6})_', source_file)`, returning the captured group. -/
def siteNumberFromFilename (f : String) : Option String :=
  siteSearch f.toList

/-- The site-number gap-fill of `extract_report_chunked`: returns the final
site number together with the entries the source appends to its local
`fields_missing` list.  Those appends happen after `DataQualityFlags` has
already copied the list, so they never reach the assembled report. -/
def gapFillSiteNumber (sn : Option String) (sourceFile : String) :
    String × List String :=
  if truthy sn then (sn.getD "", [])
  else
    match siteNumberFromFilename sourceFile with
    | some m => (m, ["site_number (extracted from filename)"])
    | none => ("000000", ["site_number"])

/-- `SiteInfo(**site_info_data)` after the gap-fill has replaced
`site_number`. -/
def fillSiteInfo (d : SiteInfoData) (sn : String) : SiteInfo :=
  { site_number := sn
    country := d.country
    institution := d.institution
    pi_first_name := d.pi_first_name
    pi_last_name := d.pi_last_name
    city := d.city
    anthos_staff := d.anthos_staff
    cra_name := d.cra_name }

/-- The assembly phase of `ChunkedExtractor.extract_report_chunked`, as a
function of the four sub-extraction results (header data, merged question
list, action items, assessment data), the source filename, and the extraction
provenance strings.  An `error` models a raised exception. -/
def extractReportChunked (h : HeaderData) (qs : List QuestionResponse)
    (ai : List ActionItem) (assess : AssessmentData)
    (sourceFile ts llmModel : String) : Except String MOVReport :=
  match mkDataQualityFlags (fieldsMissing0 h) (fieldsInvalid0 h)
      (completenessScore h qs) (requiresReview h qs) (reviewReason h qs) with
  | .error e => .error e
  | .ok dq =>
    mkMOVReport h.protocol_number
      (fillSiteInfo h.site_info (gapFillSiteNumber h.site_info.site_number sourceFile).1)
      h.visit_start_date h.visit_end_date (visitTypeValue h)
      h.recruitment_stats qs ai assess.risk_assessment
      assess.overall_site_quality assess.key_concerns assess.key_strengths
      dq ts llmModel "chunked_parallel" sourceFile

/-- Ordering used by `all_questions.sort(key=lambda q: q.question_number)`. -/
def qle (a b : QuestionResponse) : Prop :=
  a.question_number ≤ b.question_number

instance : DecidableRel qle := fun a b => Nat.decLe a.question_number b.question_number

instance : IsTotal QuestionResponse qle :=
  ⟨fun a b => Nat.le_total a.question_number b.question_number⟩

instance : IsTrans QuestionResponse qle :=
  ⟨fun _ _ _ hab hbc => Nat.le_trans hab hbc⟩

/-- Python's stable `list.sort` on question number.  `List.insertionSort` is
also stable, so it computes the same list. -/
def sortQuestions (l : List QuestionResponse) : List QuestionResponse :=
  List.insertionSort qle l

/-- The six fixed batch ranges of `_extract_questions_parallel`. -/
def batchRanges : List (Nat × Nat) :=
  [(1, 15), (16, 30), (31, 45), (46, 60), (61, 75), (76, 85)]

/-- Result of one question batch: its range, and either the parsed question
list or a raised exception. -/
abbrev BatchResult := (Nat × Nat) × Except Unit (List QuestionResponse)

/-- The questions a finished batch contributes: a batch that threw is logged
and contributes nothing (`except` branch in `_extract_questions_parallel`). -/
def batchQuestions : Except Unit (List QuestionResponse) → List QuestionResponse
  | .ok l => l
  | .error _ => []

/-- `_extract_questions_parallel` after all futures resolved: the argument is
the per-batch results in completion order; successful batches are concatenated
in that order and the combined list is sorted by question number. -/
def mergeQuestions (results : List BatchResult) : List QuestionResponse :=
  sortQuestions (results.map (fun r => batchQuestions r.2)).flatten

/-! ### Concrete fixtures used by counterexamples and witnesses -/

/-- A minimal well-formed question response with the given number. -/
def qmk (n : Nat) : QuestionResponse :=
  { question_number := n
    question_text := "Q"
    answer := .yes
    sentiment := .positive
    narrative_summary := none
    key_finding := none
    evidence := none
    confidence := 1 }

/-- A fully populated, valid header result. -/
def hdrOk : HeaderData :=
  { protocol_number := "Protocol ANT-007"
    site_info :=
      { site_number := some "772412"
        country := "Spain"
        institution := "Test Hospital"
        pi_first_name := "Maria"
        pi_last_name := "Garcia"
        city := none
        anthos_staff := "John Smith"
        cra_name := none }
    visit_start_date := some "2025-05-28"
    visit_end_date := some "2025-05-28"
    visit_type := some "IMV MOV"
    recruitment_stats :=
      { screened := 10
        screen_failures := 2
        randomized_enrolled := 8
        early_discontinued := 0
        completed_treatment := 8
        completed_study := 8 } }

/-- A benign assessment result. -/
def assessOk : AssessmentData :=
  { risk_assessment :=
      { site_level_risks_identified := false
        cra_level_risks_identified := false
        impact_country_level := false
        impact_study_level := false
        narrative := "No risks" }
    overall_site_quality := some "Good"
    key_concerns := []
    key_strengths := [] }

/-- Batch results in which batch 1-15 also (erroneously but unhindered)
returns question 16, duplicating a number of batch 16-30. -/
def c1Res : List BatchResult :=
  [((1, 15), .ok [qmk 1, qmk 16]),
   ((16, 30), .ok [qmk 16]),
   ((31, 45), .ok []),
   ((46, 60), .ok []),
   ((61, 75), .ok []),
   ((76, 85), .ok [])]

/-- Batch results respecting the per-batch range contract, listed in a
completion order different from submission order, one batch failed. -/
def c1WitnessRes : List BatchResult :=
  [((16, 30), .ok [qmk 16, qmk 30]),
   ((1, 15), .ok [qmk 1, qmk 2]),
   ((46, 60), .ok [qmk 46]),
   ((31, 45), .ok []),
   ((76, 85), .ok [qmk 85]),
   ((61, 75), .error ())]

/-- Question responses numbered 1..70. -/
def qs70 : List QuestionResponse :=
  (List.range 70).map fun i => qmk (i + 1)

/-- The valid header with the visit type absent. -/
def hdrNoVt : HeaderData :=
  { hdrOk with visit_type := none }

/-- An arbitrary report, used only as the default of `reportOf`. -/
def dummyReport : MOVReport :=
  { protocol_number := ""
    site_info :=
      { site_number := ""
        country := ""
        institution := ""
        pi_first_name := ""
        pi_last_name := ""
        city := none
        anthos_staff := ""
        cra_name := none }
    visit_start_date := none
    visit_end_date := none
    visit_type := none
    recruitment_stats :=
      { screened := 0
        screen_failures := 0
        randomized_enrolled := 0
        early_discontinued := 0
        completed_treatment := 0
        completed_study := 0 }
    question_responses := []
    action_items := []
    risk_assessment :=
      { site_level_risks_identified := false
        cra_level_risks_identified := false
        impact_country_level := false
        impact_study_level := false
        narrative := "" }
    overall_site_quality := none
    key_concerns := []
    key_strengths := []
    data_quality :=
      { fields_missing := []
        fields_invalid := []
        completeness_score := 1
        requires_review := false
        review_reason := none }
    extraction_timestamp := ""
    llm_model := ""
    extraction_method := ""
    source_file := "" }

/-- The report of a successful extraction (used to state closed witnesses). -/
def reportOf (x : Except String MOVReport) : MOVReport :=
  x.toOption.getD dummyReport

/-- The header with `site_number` replaced, for the gap-fill independence
claim. -/
def setSiteNumber (h : HeaderData) (sn : Option String) : HeaderData :=
  { h with site_info := { h.site_info with site_number := sn } }

/-- Batch results in which every one of the six batches threw. -/
def allFailRes : List BatchResult :=
  batchRanges.map fun r => (r, .error ())

/-- A concrete extraction with three questions and a missing visit type. -/
def extractC3 : Except String MOVReport :=
  extractReportChunked hdrNoVt [qmk 1, qmk 2, qmk 3] [] assessOk
    "Wang_772412_20250528.docx" "2025-06-01T00:00:00" "gpt-5-chat"

/-- Count of the expected fields the orchestrator actually checks for
absence: `visit_type`, `visit_start_date`, `visit_end_date`
(`overall_site_quality` is listed in `expected_fields` but never checked). -/
def missing3Count (h : HeaderData) : Nat :=
  (if truthy h.visit_type then 0 else 1) +
  (if truthy h.visit_start_date then 0 else 1) +
  (if truthy h.visit_end_date then 0 else 1)

/-- Modelled from the spec words of claim C4: completeness as
`1 - (missing_expected_fields + (85 - questions_extracted)) / (4 + 85)`
clamped to `[0,1]`, with the missing count taken over all four expected
fields, including `overall_site_quality`. -/
def specCompleteness (missingExpected questionsExtracted : Nat) : Rat :=
  min 1 (max 0
    (1 - ((missingExpected : Rat) + (85 - (questionsExtracted : Rat))) / (4 + 85)))

/-- The benign assessment with `overall_site_quality` absent. -/
def assessNoQual : AssessmentData :=
  { assessOk with overall_site_quality := none }

/-- A concrete extraction whose only missing expected field (in the sense of
the spec) is `overall_site_quality`. -/
def extractC4 : Except String MOVReport :=
  extractReportChunked hdrOk qs70 [] assessNoQual
    "Wang_772412_20250528.docx" "2025-06-01T00:00:00" "gpt-5-chat"

/-- A concrete extraction whose header lacks both the visit type and the site
number, with the claim C5 scenario filename. -/
def extractC5 : Except String MOVReport :=
  extractReportChunked (setSiteNumber hdrNoVt none) [qmk 1] [] assessOk
    "Wang_812409_20250402.docx" "2025-06-01T00:00:00" "gpt-5-chat"

/-- The complete batch output for the inclusive question range `[a, b]`. -/
def fullBatch (a b : Nat) : List QuestionResponse :=
  (List.range (b + 1 - a)).map fun i => qmk (a + i)

/-- Batch results in a shuffled completion order: batch 61-75 threw, the
other five returned their complete ranges. -/
def c6Res : List BatchResult :=
  [((16, 30), .ok (fullBatch 16 30)),
   ((61, 75), .error ()),
   ((1, 15), .ok (fullBatch 1 15)),
   ((46, 60), .ok (fullBatch 46 60)),
   ((76, 85), .ok (fullBatch 76 85)),
   ((31, 45), .ok (fullBatch 31 45))]

/-- The criterion of `_identify_critical_findings` for one question:
`q.answer == AnswerType.NO and q.key_finding` — the Python truthiness makes an
empty-string key finding fail the test. -/
def isCritical (q : QuestionResponse) : Bool :=
  decide (q.answer = .no) && truthy q.key_finding

/-- `ReportValidator._identify_critical_findings`: the `No`-answered questions
with truthy key findings, in report order, then the site-level and CRA-level
risk flags (the two impact flags are never consulted). -/
def criticalFindings (r : MOVReport) : List String :=
  (r.question_responses.filterMap fun q =>
    if isCritical q then
      some ("Q" ++ toString q.question_number ++ ": " ++ (q.key_finding.getD ""))
    else none) ++
  (if r.risk_assessment.site_level_risks_identified then
    ["Site-level risks identified"] else []) ++
  (if r.risk_assessment.cra_level_risks_identified then
    ["CRA-level risks identified"] else [])

/-- Modelled from the words of claim C7: one entry per question answered `No`
with a non-null `key_finding`, plus one entry per true flag among all four
risk-assessment flags. -/
def specCriticalCount (r : MOVReport) : Nat :=
  (r.question_responses.countP fun q =>
    decide (q.answer = .no) && decide (q.key_finding ≠ none)) +
  (if r.risk_assessment.site_level_risks_identified then 1 else 0) +
  (if r.risk_assessment.cra_level_risks_identified then 1 else 0) +
  (if r.risk_assessment.impact_country_level then 1 else 0) +
  (if r.risk_assessment.impact_study_level then 1 else 0)

/-- The C7 counterexample report: one question answered `No` with an
empty-string (non-null) key finding, and only the study-level impact flag
raised. -/
def reportC7 : MOVReport :=
  { dummyReport with
    question_responses := [{ qmk 1 with answer := .no, key_finding := some "" }]
    risk_assessment :=
      { dummyReport.risk_assessment with impact_study_level := true } }

instance : DecidableEq (Except Unit (List QuestionResponse)) := fun a b =>
  match a, b with
  | .ok x, .ok y => decidable_of_iff (x = y) (by simp)
  | .error x, .error y => decidable_of_iff (x = y) (by simp)
  | .ok _, .error _ => isFalse (by simp)
  | .error _, .ok _ => isFalse (by simp)

/-- Minimal JSON value tree.  `model_dump_json` is modelled as producing this
tree; text serialization of objects with distinct literal keys is faithful, so
the textual step is elided. -/
inductive JVal where
  | null
  | jbool (b : Bool)
  | jint (n : Int)
  | jrat (q : Rat)
  | jstr (s : String)
  | jarr (xs : List JVal)
  | jobj (kvs : List (String × JVal))

/-- String field accessor of a JSON value. -/
def JVal.getStr? : JVal → Option String
  | .jstr s => some s
  | _ => none

/-- Nullable-string accessor. -/
def JVal.getOptStr? : JVal → Option (Option String)
  | .null => some none
  | .jstr s => some (some s)
  | _ => none

/-- Integer accessor. -/
def JVal.getInt? : JVal → Option Int
  | .jint n => some n
  | _ => none

/-- Number accessor. -/
def JVal.getRat? : JVal → Option Rat
  | .jrat q => some q
  | _ => none

/-- Boolean accessor. -/
def JVal.getBool? : JVal → Option Bool
  | .jbool b => some b
  | _ => none

/-- Array accessor. -/
def JVal.getArr? : JVal → Option (List JVal)
  | .jarr xs => some xs
  | _ => none

/-- Element-wise decoding of a JSON array (each element validated, results
collected in order). -/
def decodeList {α : Type} (dec : JVal → Option α) : List JVal → Option (List α)
  | [] => some []
  | x :: xs => (dec x).bind fun a => (decodeList dec xs).map (a :: ·)

/-- String-array accessor. -/
def JVal.getStrList? : JVal → Option (List String)
  | .jarr xs => decodeList getStr? xs
  | _ => none

/-- Object field lookup. -/
def JVal.field? (j : JVal) (k : String) : Option JVal :=
  match j with
  | .jobj kvs => kvs.lookup k
  | _ => none

/-- JSON encoding of a nullable string. -/
def encodeOptStr : Option String → JVal
  | none => .null
  | some s => .jstr s

/-- JSON encoding of an optional visit type (pydantic serializes the enum by
its value). -/
def encodeVisitType : Option VisitType → JVal
  | none => .null
  | some v => .jstr v.value

/-- JSON encoding of `SiteInfo`. -/
def encodeSiteInfo (si : SiteInfo) : JVal :=
  .jobj [("site_number", .jstr si.site_number),
    ("country", .jstr si.country),
    ("institution", .jstr si.institution),
    ("pi_first_name", .jstr si.pi_first_name),
    ("pi_last_name", .jstr si.pi_last_name),
    ("city", encodeOptStr si.city),
    ("anthos_staff", .jstr si.anthos_staff),
    ("cra_name", encodeOptStr si.cra_name)]

/-- JSON encoding of `RecruitmentStats`. -/
def encodeRecruitment (rs : RecruitmentStats) : JVal :=
  .jobj [("screened", .jint rs.screened),
    ("screen_failures", .jint rs.screen_failures),
    ("randomized_enrolled", .jint rs.randomized_enrolled),
    ("early_discontinued", .jint rs.early_discontinued),
    ("completed_treatment", .jint rs.completed_treatment),
    ("completed_study", .jint rs.completed_study)]

/-- JSON encoding of `QuestionResponse`. -/
def encodeQuestion (q : QuestionResponse) : JVal :=
  .jobj [("question_number", .jint q.question_number),
    ("question_text", .jstr q.question_text),
    ("answer", .jstr q.answer.value),
    ("sentiment", .jstr q.sentiment.value),
    ("narrative_summary", encodeOptStr q.narrative_summary),
    ("key_finding", encodeOptStr q.key_finding),
    ("evidence", encodeOptStr q.evidence),
    ("confidence", .jrat q.confidence)]

/-- JSON encoding of `ActionItem`. -/
def encodeActionItem (a : ActionItem) : JVal :=
  .jobj [("item_number", .jint a.item_number),
    ("description", .jstr a.description),
    ("action_to_be_taken", .jstr a.action_to_be_taken),
    ("responsible", .jstr a.responsible),
    ("due_date", .jstr a.due_date),
    ("status", encodeOptStr a.status)]

/-- JSON encoding of `RiskAssessment`. -/
def encodeRisk (ra : RiskAssessment) : JVal :=
  .jobj [("site_level_risks_identified", .jbool ra.site_level_risks_identified),
    ("cra_level_risks_identified", .jbool ra.cra_level_risks_identified),
    ("impact_country_level", .jbool ra.impact_country_level),
    ("impact_study_level", .jbool ra.impact_study_level),
    ("narrative", .jstr ra.narrative)]

/-- JSON encoding of `DataQualityFlags`. -/
def encodeDq (dq : DataQualityFlags) : JVal :=
  .jobj [("fields_missing", .jarr (dq.fields_missing.map JVal.jstr)),
    ("fields_invalid", .jarr (dq.fields_invalid.map JVal.jstr)),
    ("completeness_score", .jrat dq.completeness_score),
    ("requires_review", .jbool dq.requires_review),
    ("review_reason", encodeOptStr dq.review_reason)]

/-- `MOVReport.model_dump_json`, as a JSON tree. -/
def encodeReport (r : MOVReport) : JVal :=
  .jobj [("protocol_number", .jstr r.protocol_number),
    ("site_info", encodeSiteInfo r.site_info),
    ("visit_start_date", encodeOptStr r.visit_start_date),
    ("visit_end_date", encodeOptStr r.visit_end_date),
    ("visit_type", encodeVisitType r.visit_type),
    ("recruitment_stats", encodeRecruitment r.recruitment_stats),
    ("question_responses", .jarr (r.question_responses.map encodeQuestion)),
    ("action_items", .jarr (r.action_items.map encodeActionItem)),
    ("risk_assessment", encodeRisk r.risk_assessment),
    ("overall_site_quality", encodeOptStr r.overall_site_quality),
    ("key_concerns", .jarr (r.key_concerns.map JVal.jstr)),
    ("key_strengths", .jarr (r.key_strengths.map JVal.jstr)),
    ("data_quality", encodeDq r.data_quality),
    ("extraction_timestamp", .jstr r.extraction_timestamp),
    ("llm_model", .jstr r.llm_model),
    ("extraction_method", .jstr r.extraction_method),
    ("source_file", .jstr r.source_file)]

/-- Typed field accessors (kept as named functions: the code generator
handles long inlined accessor chains poorly). -/
def strField (j : JVal) (k : String) : Option String :=
  (j.field? k).bind JVal.getStr?

/-- Nullable-string field accessor. -/
def optStrField (j : JVal) (k : String) : Option (Option String) :=
  (j.field? k).bind JVal.getOptStr?

/-- Integer field accessor. -/
def intField (j : JVal) (k : String) : Option Int :=
  (j.field? k).bind JVal.getInt?

/-- Non-negative-integer field accessor. -/
def natField (j : JVal) (k : String) : Option Nat :=
  (intField j k).bind Int.toNat'

/-- Number field accessor. -/
def ratField (j : JVal) (k : String) : Option Rat :=
  (j.field? k).bind JVal.getRat?

/-- Boolean field accessor. -/
def boolField (j : JVal) (k : String) : Option Bool :=
  (j.field? k).bind JVal.getBool?

/-- String-array field accessor. -/
def strListField (j : JVal) (k : String) : Option (List String) :=
  (j.field? k).bind JVal.getStrList?

/-- Decoding (validating) of `SiteInfo`; the six-digit check happens in the
enclosing report validation. -/
def decodeSiteInfo (j : JVal) : Option SiteInfo :=
  match strField j "site_number", strField j "country",
      strField j "institution", strField j "pi_first_name",
      strField j "pi_last_name", optStrField j "city",
      strField j "anthos_staff", optStrField j "cra_name" with
  | some sn, some country, some institution, some fn, some ln, some city,
      some staff, some cra =>
    some { site_number := sn
           country := country
           institution := institution
           pi_first_name := fn
           pi_last_name := ln
           city := city
           anthos_staff := staff
           cra_name := cra }
  | _, _, _, _, _, _, _, _ => none

/-- Decoding of `RecruitmentStats`. -/
def decodeRecruitment (j : JVal) : Option RecruitmentStats :=
  match intField j "screened", intField j "screen_failures",
      intField j "randomized_enrolled", intField j "early_discontinued",
      intField j "completed_treatment", intField j "completed_study" with
  | some a, some b, some c, some d, some e, some f =>
    some { screened := a
           screen_failures := b
           randomized_enrolled := c
           early_discontinued := d
           completed_treatment := e
           completed_study := f }
  | _, _, _, _, _, _ => none

/-- Decoding of an optional visit type. -/
def decodeVisitType : JVal → Option (Option VisitType)
  | .null => some none
  | .jstr s => (VisitType.ofString? s).map some
  | _ => none

/-- Decoding of `QuestionResponse`. -/
def decodeQuestion (j : JVal) : Option QuestionResponse :=
  match natField j "question_number", strField j "question_text",
      (strField j "answer").bind AnswerType.ofString?,
      (strField j "sentiment").bind SentimentType.ofString?,
      optStrField j "narrative_summary", optStrField j "key_finding",
      optStrField j "evidence", ratField j "confidence" with
  | some qn, some qt, some ans, some sent, some ns, some kf, some ev,
      some conf =>
    some { question_number := qn
           question_text := qt
           answer := ans
           sentiment := sent
           narrative_summary := ns
           key_finding := kf
           evidence := ev
           confidence := conf }
  | _, _, _, _, _, _, _, _ => none

/-- Decoding of `ActionItem`. -/
def decodeActionItem (j : JVal) : Option ActionItem :=
  match natField j "item_number", strField j "description",
      strField j "action_to_be_taken", strField j "responsible",
      strField j "due_date", optStrField j "status" with
  | some n, some de, some act, some resp, some due, some st =>
    some { item_number := n
           description := de
           action_to_be_taken := act
           responsible := resp
           due_date := due
           status := st }
  | _, _, _, _, _, _ => none

/-- Decoding of `RiskAssessment`. -/
def decodeRisk (j : JVal) : Option RiskAssessment :=
  match boolField j "site_level_risks_identified",
      boolField j "cra_level_risks_identified",
      boolField j "impact_country_level", boolField j "impact_study_level",
      strField j "narrative" with
  | some a, some b, some c, some d, some n =>
    some { site_level_risks_identified := a
           cra_level_risks_identified := b
           impact_country_level := c
           impact_study_level := d
           narrative := n }
  | _, _, _, _, _ => none

/-- Decoding of `DataQualityFlags`, with its score bounds. -/
def decodeDq (j : JVal) : Option DataQualityFlags :=
  match strListField j "fields_missing", strListField j "fields_invalid",
      ratField j "completeness_score", boolField j "requires_review",
      optStrField j "review_reason" with
  | some fm, some fi, some cs, some rr, some reason =>
    if 0 ≤ cs ∧ cs ≤ 1 then
      some { fields_missing := fm
             fields_invalid := fi
             completeness_score := cs
             requires_review := rr
             review_reason := reason }
    else none
  | _, _, _, _, _ => none

/-- `MOVReport.model_validate_json`: structural parse plus the pydantic
validations (via `mkMOVReport`); `none` models a raised `ValidationError`. -/
def decodeReport (j : JVal) : Option MOVReport :=
  match strField j "protocol_number", (j.field? "site_info").bind decodeSiteInfo,
      optStrField j "visit_start_date", optStrField j "visit_end_date",
      (j.field? "visit_type").bind decodeVisitType,
      (j.field? "recruitment_stats").bind decodeRecruitment,
      ((j.field? "question_responses").bind JVal.getArr?).bind
        (decodeList decodeQuestion),
      ((j.field? "action_items").bind JVal.getArr?).bind
        (decodeList decodeActionItem),
      (j.field? "risk_assessment").bind decodeRisk,
      optStrField j "overall_site_quality", strListField j "key_concerns",
      strListField j "key_strengths", (j.field? "data_quality").bind decodeDq,
      strField j "extraction_timestamp", strField j "llm_model",
      strField j "extraction_method", strField j "source_file" with
  | some p, some si, some vsd, some ved, some vt, some rs, some qs, some ai,
      some ra, some qual, some kc, some ks, some dq, some ts, some lm,
      some me, some sf =>
    (mkMOVReport p si vsd ved vt rs qs ai ra qual kc ks dq ts lm me sf).toOption
  | _, _, _, _, _, _, _, _, _, _, _, _, _, _, _, _, _ => none

/-- The pydantic validity of a report value, exactly the checks of
`mkMOVReport` plus the `DataQualityFlags` score bounds. -/
def reportValid (r : MOVReport) : Bool :=
  protocolOk r.protocol_number && siteNumberOk r.site_info.site_number &&
  recruitmentOk r.recruitment_stats && !r.question_responses.isEmpty &&
  r.question_responses.all questionOk && r.action_items.all actionItemOk &&
  qualityOk r.overall_site_quality &&
  decide (r.key_concerns.length ≤ 10) && decide (r.key_strengths.length ≤ 10) &&
  decide (0 ≤ r.data_quality.completeness_score) &&
  decide (r.data_quality.completeness_score ≤ 1)

/-- One row of the `mov_reports` table (`ReportRecord` in `sqlite_db.py`). -/
structure DbRecord where
  id : String
  protocol_number : String
  site_number : String
  visit_date : String
  visit_type : Option String
  overall_quality : Option String
  extraction_timestamp : String
  json_data : JVal
  source_file : String
  completeness_score : Rat
  requires_review : Bool
  review_reason : Option String

/-- The `mov_reports` table, keyed by the primary-key `id` column. -/
abbrev ReportTable := List (String × DbRecord)

/-- `session.merge` plus commit: insert-or-update by primary key. -/
def upsertRecord (db : ReportTable) (rec : DbRecord) : ReportTable :=
  match db with
  | [] => [(rec.id, rec)]
  | (k, r) :: rest =>
    if k = rec.id then (k, rec) :: rest else (k, r) :: upsertRecord rest rec

/-- Conservative model of `datetime.fromisoformat` restricted to the
`YYYY-MM-DD` date-only strings this system produces (the full parser accepts
more formats and checks per-month day counts; none of that is exercised
here). -/
def isoDateOk (s : String) : Bool :=
  match s.toList with
  | [y1, y2, y3, y4, '-', m1, m2, '-', d1, d2] =>
    y1.isDigit && y2.isDigit && y3.isDigit && y4.isDigit &&
    m1.isDigit && m2.isDigit && d1.isDigit && d2.isDigit &&
    decide (1 ≤ 10 * (m1.toNat - 48) + (m2.toNat - 48)) &&
    decide (10 * (m1.toNat - 48) + (m2.toNat - 48) ≤ 12) &&
    decide (1 ≤ 10 * (d1.toNat - 48) + (d2.toNat - 48)) &&
    decide (10 * (d1.toNat - 48) + (d2.toNat - 48) ≤ 31)
  | _ => false

/-- The row `save_report` builds for a report with visit date `d`. -/
def dbRecordOf (r : MOVReport) (d : String) : DbRecord :=
  { id := r.site_info.site_number ++ "_" ++ d
    protocol_number := r.protocol_number
    site_number := r.site_info.site_number
    visit_date := d
    visit_type := r.visit_type.map VisitType.value
    overall_quality := r.overall_site_quality
    extraction_timestamp := r.extraction_timestamp
    json_data := encodeReport r
    source_file := r.source_file
    completeness_score := r.data_quality.completeness_score
    requires_review := r.data_quality.requires_review
    review_reason := r.data_quality.review_reason }

/-- `SQLiteDatabase.save_report`: key `{site_number}_{visit_start_date}` and
upsert.  With `visit_start_date = None`, `datetime.fromisoformat(None)`
raises `TypeError` — the SQLite store has no `"UNKNOWN"` substitution (only
the PostgreSQL store substitutes); a malformed date raises `ValueError`. -/
def saveReport (db : ReportTable) (r : MOVReport) :
    Except String (ReportTable × String) :=
  match r.visit_start_date with
  | none => .error "fromisoformat: argument must be str"
  | some d =>
    if isoDateOk d then
      .ok (upsertRecord db (dbRecordOf r d), r.site_info.site_number ++ "_" ++ d)
    else .error "Invalid isoformat string"

/-- `SQLiteDatabase.get_report`: look the id up and re-validate the stored
JSON (`MOVReport.model_validate_json`). -/
def getReport (db : ReportTable) (rid : String) : Option MOVReport :=
  (db.lookup rid).bind fun rec => decodeReport rec.json_data

/-- A handcrafted valid report with a known visit start date. -/
def reportC8 : MOVReport :=
  { dummyReport with
    protocol_number := "Protocol ANT-007"
    site_info := { dummyReport.site_info with site_number := "812409" }
    visit_start_date := some "2025-04-02"
    question_responses := [qmk 1] }

/-- The same report re-extracted with a different model tag (same natural
key), for the upsert half of the round-trip claim. -/
def reportC8v2 : MOVReport :=
  { reportC8 with llm_model := "gpt-5-chat" }

/-! ### C1 -/

/-- C1 (counterexample): the orchestrator only sorts the concatenated batch
outputs and never deduplicates, so when two batches both return question 16
the assembled report's `question_responses` carries the number 16 twice and is
not strictly ascending. -/
theorem c1_counterexample :
    (extractReportChunked hdrOk (mergeQuestions c1Res) [] assessOk
        "Wang_772412_20250528.docx" "2025-06-01T00:00:00" "gpt-5-chat").toOption.map
        (fun r => r.question_responses.map QuestionResponse.question_number) =
      some [1, 16, 16] ∧
    ¬ ([1, 16, 16].Pairwise (fun a b : Nat => a < b)) := by
  constructor
  · with_unfolding_all rfl
  · decide

/-- C1 (amended): provided every batch returns questions whose numbers lie in
that batch's assigned range and are pairwise distinct within the batch (the
batch output contract), the merged `question_responses` list is sorted
strictly ascending by `question_number` — hence duplicate-free — for every
completion order of the six concurrent batches. -/
theorem c1_merged_strictly_sorted (res : List BatchResult)
    (hperm : (res.map Prod.fst).Perm batchRanges)
    (hrange : ∀ p ∈ res, ∀ q ∈ batchQuestions p.2,
      p.1.1 ≤ q.question_number ∧ q.question_number ≤ p.1.2)
    (hnd : ∀ p ∈ res,
      ((batchQuestions p.2).map QuestionResponse.question_number).Nodup) :
    ((mergeQuestions res).map QuestionResponse.question_number).Pairwise (· < ·) := by
  classical
  set L : List QuestionResponse := (res.map fun r => batchQuestions r.2).flatten with hL
  have hsorted : (sortQuestions L).Pairwise qle := List.sorted_insertionSort qle L
  have hpermL : List.Perm (sortQuestions L) L := List.perm_insertionSort qle L
  have hnodupL : (L.map QuestionResponse.question_number).Nodup := by
    rw [hL, List.map_flatten, List.map_map]
    rw [List.nodup_flatten]
    constructor
    · intro l hl
      rcases List.mem_map.mp hl with ⟨p, hp, rfl⟩
      exact hnd p hp
    · have hsep : (res.map Prod.fst).Pairwise
          (fun r r' : Nat × Nat => r.2 < r'.1 ∨ r'.2 < r.1) := by
        have hbr : batchRanges.Pairwise
            (fun r r' : Nat × Nat => r.2 < r'.1 ∨ r'.2 < r.1) := by decide
        exact (hperm.pairwise_iff (fun h => h.symm)).mpr hbr
      have hsep' : res.Pairwise
          (fun p p' : BatchResult => p.1.2 < p'.1.1 ∨ p'.1.2 < p.1.1) :=
        List.pairwise_map.mp hsep
      refine List.pairwise_map.mpr (hsep'.imp_of_mem ?_)
      intro p p' hp hp' hR
      intro a ha ha'
      rcases List.mem_map.mp ha with ⟨q, hq, rfl⟩
      rcases List.mem_map.mp ha' with ⟨q', hq', hqq⟩
      have h1 := hrange p hp q hq
      have h2 := hrange p' hp' q' hq'
      rw [hqq] at h2
      omega
  have hnodupS : ((sortQuestions L).map QuestionResponse.question_number).Nodup :=
    (hpermL.map QuestionResponse.question_number).nodup_iff.mpr hnodupL
  have hne : (sortQuestions L).Pairwise
      (fun a b => a.question_number ≠ b.question_number) :=
    List.pairwise_map.mp hnodupS
  have hlt : (sortQuestions L).Pairwise
      (fun a b => a.question_number < b.question_number) :=
    (hsorted.and hne).imp (fun h => Nat.lt_of_le_of_ne h.1 h.2)
  have hM : mergeQuestions res = sortQuestions L := rfl
  rw [hM]
  exact List.pairwise_map.mpr hlt

/-- C1 (witness): the amended theorem applied to a concrete completion order
that differs from submission order, with one failed batch. -/
theorem c1_witness :
    ((mergeQuestions c1WitnessRes).map QuestionResponse.question_number).Pairwise
      (· < ·) :=
  c1_merged_strictly_sorted c1WitnessRes (by decide) (by decide) (by decide)

/-! ### Shared inversion and string helpers -/

/-- Inversion of `mkDataQualityFlags`: a successful construction returns
exactly the record of its arguments. -/
theorem mkDataQualityFlags_ok_inv {missing invalid : List String} {score : Rat}
    {review : Bool} {reason : Option String} {dq : DataQualityFlags}
    (hok : mkDataQualityFlags missing invalid score review reason = .ok dq) :
    dq = ⟨missing, invalid, score, review, reason⟩ := by
  unfold mkDataQualityFlags at hok
  split at hok
  · exact ((Except.ok.injEq _ _).mp hok).symm
  · exact absurd hok (by simp)

/-- Inversion of `mkMOVReport`: a successful construction returns exactly the
record of its arguments. -/
theorem mkMOVReport_ok_inv {p : String} {si : SiteInfo} {vsd ved : Option String}
    {vt : Option VisitType} {rs : RecruitmentStats} {qs : List QuestionResponse}
    {ai : List ActionItem} {ra : RiskAssessment} {quality : Option String}
    {concerns strengths : List String} {dq : DataQualityFlags}
    {ts lm me sf : String} {r : MOVReport}
    (hok : mkMOVReport p si vsd ved vt rs qs ai ra quality concerns strengths
      dq ts lm me sf = .ok r) :
    r = { protocol_number := p
          site_info := si
          visit_start_date := vsd
          visit_end_date := ved
          visit_type := vt
          recruitment_stats := rs
          question_responses := qs
          action_items := ai
          risk_assessment := ra
          overall_site_quality := quality
          key_concerns := concerns
          key_strengths := strengths
          data_quality := dq
          extraction_timestamp := ts
          llm_model := lm
          extraction_method := me
          source_file := sf } := by
  unfold mkMOVReport at hok
  repeat' split at hok
  all_goals first
    | exact ((Except.ok.injEq _ _).mp hok).symm
    | simp at hok

/-- Inversion of a successful assembly: every observable field of the report
is determined by the sub-extraction inputs, and the data-quality flags are the
snapshot taken before the site-number gap-fill. -/
theorem extract_ok_inv {h : HeaderData} {qs : List QuestionResponse}
    {ai : List ActionItem} {assess : AssessmentData} {sf ts lm : String}
    {r : MOVReport}
    (hok : extractReportChunked h qs ai assess sf ts lm = .ok r) :
    r.question_responses = qs ∧
    r.visit_type = visitTypeValue h ∧
    r.visit_start_date = h.visit_start_date ∧
    r.visit_end_date = h.visit_end_date ∧
    r.overall_site_quality = assess.overall_site_quality ∧
    r.site_info.site_number = (gapFillSiteNumber h.site_info.site_number sf).1 ∧
    r.data_quality = ⟨fieldsMissing0 h, fieldsInvalid0 h, completenessScore h qs,
      requiresReview h qs, reviewReason h qs⟩ := by
  unfold extractReportChunked at hok
  split at hok
  · exact absurd hok (by simp)
  case _ dq heq =>
    have hdq := mkDataQualityFlags_ok_inv heq
    have hr := mkMOVReport_ok_inv hok
    subst hdq
    subst hr
    simp [fillSiteInfo]

/-- The head of a non-empty intercalation is a prefix of the result
(auxiliary step over the accumulator of `String.intercalate.go`). -/
theorem intercalate_go_prefix (as : List String) :
    ∀ acc s : String, ∃ t, String.intercalate.go acc s as = acc ++ t := by
  induction as with
  | nil =>
    intro acc s
    exact ⟨"", by simp [String.intercalate.go]⟩
  | cons a as ih =>
    intro acc s
    obtain ⟨t, ht⟩ := ih (acc ++ s ++ a) s
    refine ⟨s ++ a ++ t, ?_⟩
    simp only [String.intercalate.go, ht]
    simp [String.append_assoc]

/-- The first component of `String.intercalate s (a :: l)` is the prefix `a`. -/
theorem intercalate_cons_prefix (s a : String) (l : List String) :
    ∃ t, String.intercalate s (a :: l) = a ++ t := by
  simpa [String.intercalate] using intercalate_go_prefix l a s

/-! ### C2 -/

/-- C2 (counterexample): an assembled report with 70 extracted questions and
an empty `fields_invalid` list can still have `requires_review = true` — here
because the visit type is absent, which the claim does not exclude. -/
theorem c2_counterexample :
    (extractReportChunked hdrNoVt qs70 [] assessOk "Wang_772412_20250528.docx"
        "2025-06-01T00:00:00" "gpt-5-chat").toOption.map
      (fun r => (r.question_responses.length, r.data_quality.fields_invalid,
        r.data_quality.requires_review)) = some (70, [], true) := by
  with_unfolding_all rfl

/-- C2 (amended): an assembled report with at least 70 extracted questions, an
empty `fields_invalid` list, a non-null visit type, and non-empty visit start
and end dates has `requires_review = false` (the claim as stated omitted the
visit-type and visit-date conditions). -/
theorem c2_requires_review_false (h : HeaderData) (qs : List QuestionResponse)
    (ai : List ActionItem) (assess : AssessmentData) (sf ts lm : String)
    (r : MOVReport)
    (hok : extractReportChunked h qs ai assess sf ts lm = .ok r)
    (hq : 70 ≤ r.question_responses.length)
    (hinv : r.data_quality.fields_invalid = [])
    (hvt : r.visit_type ≠ none)
    (hsd : truthy r.visit_start_date = true)
    (hed : truthy r.visit_end_date = true) :
    r.data_quality.requires_review = false := by
  obtain ⟨hq', hvt', hsd', hed', -, -, hdq⟩ := extract_ok_inv hok
  rw [hdq] at hinv ⊢
  rw [hq'] at hq
  rw [hvt'] at hvt
  rw [hsd'] at hsd
  rw [hed'] at hed
  have hinv' : fieldsInvalid0 h = [] := hinv
  have h70 : ¬ (qs.length < 70) := Nat.not_lt.mpr hq
  show requiresReview h qs = false
  simp [requiresReview, h70, hsd, hed, hinv', Option.isNone_iff_eq_none,
    Option.isSome_iff_ne_none, hvt]

/-- C2 (witness): a concrete complete header with exactly 70 questions is not
flagged for review. -/
theorem c2_witness :
    (reportOf (extractReportChunked hdrOk qs70 [] assessOk
      "Wang_772412_20250528.docx" "2025-06-01T00:00:00"
      "gpt-5-chat")).data_quality.requires_review = false :=
  c2_requires_review_false hdrOk qs70 [] assessOk "Wang_772412_20250528.docx"
    "2025-06-01T00:00:00" "gpt-5-chat" _
    (by with_unfolding_all rfl)
    (of_decide_eq_true (by with_unfolding_all rfl))
    (by with_unfolding_all rfl)
    (of_decide_eq_true (by with_unfolding_all rfl))
    (by with_unfolding_all rfl)
    (by with_unfolding_all rfl)

/-! ### C3 -/

/-- C3: for every successful assembly, `requires_review` is true exactly when
one of the five conditions holds (fewer than 70 questions, null visit type,
missing start date, missing end date, some invalid field); `review_reasons`
holds one entry per triggered condition; and when fewer than 70 questions were
extracted, `review_reason` starts with the count message
`Only N/85 questions extracted`. -/
theorem c3_review_logic (h : HeaderData) (qs : List QuestionResponse)
    (ai : List ActionItem) (assess : AssessmentData) (sf ts lm : String)
    (r : MOVReport)
    (hok : extractReportChunked h qs ai assess sf ts lm = .ok r) :
    (r.data_quality.requires_review = true ↔
      (r.question_responses.length < 70 ∨ r.visit_type = none ∨
        truthy r.visit_start_date = false ∨ truthy r.visit_end_date = false ∨
        r.data_quality.fields_invalid ≠ [])) ∧
    (reviewReasons h qs).length =
      ([decide (r.question_responses.length < 70), decide (r.visit_type = none),
        !truthy r.visit_start_date, !truthy r.visit_end_date,
        decide (r.data_quality.fields_invalid ≠ [])].count true) ∧
    (r.question_responses.length < 70 →
      ∃ t, r.data_quality.review_reason =
        some ("Only " ++ toString r.question_responses.length ++
          "/85 questions extracted" ++ t)) := by
  obtain ⟨hq', hvt', hsd', hed', -, -, hdq⟩ := extract_ok_inv hok
  rw [hdq, hq', hvt', hsd', hed']
  refine ⟨?_, ?_, ?_⟩
  · show requiresReview h qs = true ↔ _
    show _ ↔ (qs.length < 70 ∨ visitTypeValue h = none ∨
      truthy h.visit_start_date = false ∨ truthy h.visit_end_date = false ∨
      fieldsInvalid0 h ≠ [])
    simp [requiresReview, Option.isNone_iff_eq_none, Bool.not_eq_true',
      List.length_pos, or_assoc]
  · show (reviewReasons h qs).length = _
    by_cases h1 : qs.length < 70 <;>
      by_cases h2 : visitTypeValue h = none <;>
        by_cases h3 : truthy h.visit_start_date = true <;>
          by_cases h4 : truthy h.visit_end_date = true <;>
            by_cases h5 : fieldsInvalid0 h = [] <;>
              simp [reviewReasons, h1, h2, h3, h4, h5,
                Option.isNone_iff_eq_none, List.count_cons]
  · intro h70
    show ∃ t, reviewReason h qs = some _
    have htail : reviewReasons h qs =
        ("Only " ++ toString qs.length ++ "/85 questions extracted") ::
        ((if (visitTypeValue h).isNone then ["Visit type not specified"] else []) ++
          (if ¬ truthy h.visit_start_date then ["Visit start date missing"] else []) ++
          (if ¬ truthy h.visit_end_date then ["Visit end date missing"] else []) ++
          (if fieldsInvalid0 h ≠ [] then
            ["Invalid fields: " ++ String.intercalate ", " (fieldsInvalid0 h)]
          else [])) := by
      simp only [reviewReasons]
      rw [if_pos h70]
      simp
    obtain ⟨t, ht⟩ := intercalate_cons_prefix "; "
      ("Only " ++ toString qs.length ++ "/85 questions extracted")
      ((if (visitTypeValue h).isNone then ["Visit type not specified"] else []) ++
        (if ¬ truthy h.visit_start_date then ["Visit start date missing"] else []) ++
        (if ¬ truthy h.visit_end_date then ["Visit end date missing"] else []) ++
        (if fieldsInvalid0 h ≠ [] then
          ["Invalid fields: " ++ String.intercalate ", " (fieldsInvalid0 h)]
        else []))
    refine ⟨t, ?_⟩
    unfold reviewReason
    rw [htail, if_neg (by simp), ht]

/-- C3 (witness): the review logic evaluated on a concrete extraction with
three questions and a missing visit type. -/
theorem c3_witness :
    ((reportOf extractC3).data_quality.requires_review = true ↔
      ((reportOf extractC3).question_responses.length < 70 ∨
        (reportOf extractC3).visit_type = none ∨
        truthy (reportOf extractC3).visit_start_date = false ∨
        truthy (reportOf extractC3).visit_end_date = false ∨
        (reportOf extractC3).data_quality.fields_invalid ≠ [])) ∧
    (reviewReasons hdrNoVt [qmk 1, qmk 2, qmk 3]).length =
      ([decide ((reportOf extractC3).question_responses.length < 70),
        decide ((reportOf extractC3).visit_type = none),
        !truthy (reportOf extractC3).visit_start_date,
        !truthy (reportOf extractC3).visit_end_date,
        decide ((reportOf extractC3).data_quality.fields_invalid ≠ [])].count true) ∧
    ((reportOf extractC3).question_responses.length < 70 →
      ∃ t, (reportOf extractC3).data_quality.review_reason =
        some ("Only " ++ toString (reportOf extractC3).question_responses.length ++
          "/85 questions extracted" ++ t)) :=
  c3_review_logic hdrNoVt [qmk 1, qmk 2, qmk 3] [] assessOk
    "Wang_772412_20250528.docx" "2025-06-01T00:00:00" "gpt-5-chat"
    (reportOf extractC3) (by with_unfolding_all rfl)

/-! ### C9 -/

/-- C9: two successful extractions whose inputs differ only in whether the
header supplied `site_number` have identical `completeness_score` and
`requires_review`: both are computed before the site-number gap-fill, which is
the only consumer of the site number. -/
theorem c9_score_independent_of_site_number (h : HeaderData)
    (sn₁ sn₂ : Option String) (qs : List QuestionResponse)
    (ai : List ActionItem) (assess : AssessmentData) (sf ts lm : String)
    (r₁ r₂ : MOVReport)
    (h1 : extractReportChunked (setSiteNumber h sn₁) qs ai assess sf ts lm = .ok r₁)
    (h2 : extractReportChunked (setSiteNumber h sn₂) qs ai assess sf ts lm = .ok r₂) :
    r₁.data_quality.completeness_score = r₂.data_quality.completeness_score ∧
    r₁.data_quality.requires_review = r₂.data_quality.requires_review := by
  obtain ⟨-, -, -, -, -, -, hdq1⟩ := extract_ok_inv h1
  obtain ⟨-, -, -, -, -, -, hdq2⟩ := extract_ok_inv h2
  rw [hdq1, hdq2]
  exact ⟨rfl, rfl⟩

/-- C9 (witness): a header that supplied `site_number` and the same header
without it (the filename supplies the fallback) yield the same completeness
score and review flag. -/
theorem c9_witness :
    (reportOf (extractReportChunked (setSiteNumber hdrOk (some "772412"))
        qs70 [] assessOk "Wang_772412_20250528.docx" "2025-06-01T00:00:00"
        "gpt-5-chat")).data_quality.completeness_score =
      (reportOf (extractReportChunked (setSiteNumber hdrOk none)
        qs70 [] assessOk "Wang_772412_20250528.docx" "2025-06-01T00:00:00"
        "gpt-5-chat")).data_quality.completeness_score ∧
    (reportOf (extractReportChunked (setSiteNumber hdrOk (some "772412"))
        qs70 [] assessOk "Wang_772412_20250528.docx" "2025-06-01T00:00:00"
        "gpt-5-chat")).data_quality.requires_review =
      (reportOf (extractReportChunked (setSiteNumber hdrOk none)
        qs70 [] assessOk "Wang_772412_20250528.docx" "2025-06-01T00:00:00"
        "gpt-5-chat")).data_quality.requires_review :=
  c9_score_independent_of_site_number hdrOk (some "772412") none qs70 []
    assessOk "Wang_772412_20250528.docx" "2025-06-01T00:00:00" "gpt-5-chat"
    _ _ (by with_unfolding_all rfl) (by with_unfolding_all rfl)

/-! ### C10 -/

/-- C10: if the merged question list is empty — as when all six question
batches fail — report assembly raises instead of returning a degraded report,
because the report constructor requires at least one question response. -/
theorem c10_empty_questions_error (h : HeaderData) (res : List BatchResult)
    (ai : List ActionItem) (assess : AssessmentData) (sf ts lm : String)
    (hempty : mergeQuestions res = []) :
    ∃ e, extractReportChunked h (mergeQuestions res) ai assess sf ts lm = .error e := by
  rw [hempty]
  unfold extractReportChunked
  split
  · exact ⟨_, rfl⟩
  · unfold mkMOVReport
    repeat' split
    all_goals first
      | exact ⟨_, rfl⟩
      | simp_all

/-- C10 (witness): all six batches failing yields an empty merged list, and
the assembly errors on it. -/
theorem c10_witness :
    ∃ e, extractReportChunked hdrOk (mergeQuestions allFailRes) [] assessOk
      "Wang_772412_20250528.docx" "2025-06-01T00:00:00" "gpt-5-chat" =
        .error e :=
  c10_empty_questions_error hdrOk allFailRes [] assessOk
    "Wang_772412_20250528.docx" "2025-06-01T00:00:00" "gpt-5-chat" (by decide)

/-! ### C4 -/

/-- Helper: the length of the pre-gap-fill `fields_missing` list equals the
count of missing fields among the three that are actually checked. -/
theorem fieldsMissing0_length (h : HeaderData) :
    ((fieldsMissing0 h).length : Int) = (missing3Count h : Int) := by
  unfold fieldsMissing0 missing3Count
  by_cases h1 : truthy h.visit_type <;>
    by_cases h2 : truthy h.visit_start_date <;>
      by_cases h3 : truthy h.visit_end_date <;> simp [h1, h2, h3]

/-- Helper: `Rat.floor` is monotone. -/
theorem ratFloor_mono {a b : Rat} (hab : a ≤ b) : Rat.floor a ≤ Rat.floor b := by
  rw [Rat.le_floor]
  calc ((Rat.floor a : Int) : Rat) ≤ a := Rat.le_floor.mp (le_refl _)
    _ ≤ b := hab

/-- Helper: `round3` is monotone. -/
theorem round3_mono {a b : Rat} (hab : a ≤ b) : round3 a ≤ round3 b := by
  unfold round3
  have h1 : Rat.floor (a * 1000 + 1/2) ≤ Rat.floor (b * 1000 + 1/2) :=
    ratFloor_mono (by linarith)
  have h2 : ((Rat.floor (a * 1000 + 1/2) : Int) : Rat) ≤
      ((Rat.floor (b * 1000 + 1/2) : Int) : Rat) := by exact_mod_cast h1
  linarith

/-- Helper: a successful assembly in particular certifies the stored
completeness score is within `[0,1]` (the pydantic bounds). -/
theorem extract_ok_score_bounds {h : HeaderData} {qs : List QuestionResponse}
    {ai : List ActionItem} {assess : AssessmentData} {sf ts lm : String}
    {r : MOVReport}
    (hok : extractReportChunked h qs ai assess sf ts lm = .ok r) :
    0 ≤ completenessScore h qs ∧ completenessScore h qs ≤ 1 := by
  unfold extractReportChunked at hok
  split at hok
  · simp at hok
  case _ dq heq =>
    unfold mkDataQualityFlags at heq
    split at heq
    · assumption
    · simp at heq

/-- C4 (amended): the stored completeness score is the 3-decimal rounding of
`max 0 (1 - (m + (85 - q)) / 89)` where `m` counts missing fields among
`visit_type`, `visit_start_date` and `visit_end_date` only — the fourth
expected field, `overall_site_quality`, is never counted; the score of every
successful assembly lies in `[0,1]` and is monotonically non-increasing in the
count of missing checked fields. -/
theorem c4_completeness_formula (h h₂ : HeaderData) (qs : List QuestionResponse)
    (ai : List ActionItem) (assess : AssessmentData) (sf ts lm : String)
    (r : MOVReport)
    (hok : extractReportChunked h qs ai assess sf ts lm = .ok r) :
    r.data_quality.completeness_score =
      round3 (max 0 (1 - ((missing3Count h : Rat) + (85 - (qs.length : Rat))) / 89)) ∧
    (0 ≤ r.data_quality.completeness_score ∧
      r.data_quality.completeness_score ≤ 1) ∧
    (missing3Count h ≤ missing3Count h₂ →
      completenessScore h₂ qs ≤ completenessScore h qs) := by
  obtain ⟨-, -, -, -, -, -, hdq⟩ := extract_ok_inv hok
  have hbounds := extract_ok_score_bounds hok
  have hval : ∀ g : HeaderData, completenessScore g qs =
      round3 (max 0 (1 - ((missing3Count g : Rat) + (85 - (qs.length : Rat))) / 89)) := by
    intro g
    unfold completenessScore completenessRaw missingCount
    rw [fieldsMissing0_length]
    congr 1
    have h89 : ((totalFields : Nat) : Rat) = 89 := by
      norm_num [totalFields, expectedFields]
    rw [h89]
    push_cast
    ring_nf
  refine ⟨?_, ?_, ?_⟩
  · rw [hdq]
    exact hval h
  · rw [hdq]
    exact hbounds
  · intro hm
    rw [hval h, hval h₂]
    apply round3_mono
    apply max_le_max (le_refl 0)
    have hmr : (missing3Count h : Rat) ≤ (missing3Count h₂ : Rat) := by
      exact_mod_cast hm
    have : ((missing3Count h : Rat) + (85 - (qs.length : Rat))) / 89 ≤
        ((missing3Count h₂ : Rat) + (85 - (qs.length : Rat))) / 89 := by
      exact div_le_div_of_nonneg_right (by linarith) (by norm_num)
    linarith

/-- C4 (counterexample): with all three checked fields present, 70 questions,
and `overall_site_quality` absent, the stored score is `round3 (1 - 15/89) =
0.831`, whereas the claim's formula — which counts `overall_site_quality`
among the missing expected fields — gives `1 - 16/89`, and the two differ. -/
theorem c4_counterexample :
    (extractC4.toOption.map fun r =>
      (r.overall_site_quality, r.data_quality.completeness_score)) =
      some (none, 831/1000) ∧
    specCompleteness 1 70 ≠ 831/1000 := by
  constructor
  · with_unfolding_all rfl
  · exact of_decide_eq_false (by with_unfolding_all rfl)

/-- C4 (witness): the amended formula, bounds, and monotonicity evaluated on a
concrete pair of headers (complete, and with visit type missing). -/
theorem c4_witness :
    (reportOf extractC4).data_quality.completeness_score =
      round3 (max 0 (1 - ((missing3Count hdrOk : Rat) + (85 - (qs70.length : Rat))) / 89)) ∧
    (0 ≤ (reportOf extractC4).data_quality.completeness_score ∧
      (reportOf extractC4).data_quality.completeness_score ≤ 1) ∧
    (missing3Count hdrOk ≤ missing3Count hdrNoVt →
      completenessScore hdrNoVt qs70 ≤ completenessScore hdrOk qs70) :=
  c4_completeness_formula hdrOk hdrNoVt qs70 [] assessNoQual
    "Wang_772412_20250528.docx" "2025-06-01T00:00:00" "gpt-5-chat"
    (reportOf extractC4) (by with_unfolding_all rfl)

/-! ### C5 -/

/-- C5: with `site_number` null in the header and the filename
`Wang_812409_20250402.docx`, the orchestrator does set the report's
`site_info.site_number` to `"812409"`, and the gap-fill computes the entry
`"site_number (extracted from filename)"` for the local `fields_missing`
list — but that append happens after `DataQualityFlags` has already copied
the list (pydantic v2 copies list fields on validation), so the assembled
report's `data_quality.fields_missing` does not contain it (here it still
holds only `"visit_type"`).  The non-matching-filename path likewise sets the
placeholder `"000000"` and computes the entry `"site_number"`, which is lost
the same way. -/
theorem c5_gap_fill_divergence :
    (extractC5.toOption.map fun r =>
      (r.site_info.site_number, r.data_quality.fields_missing)) =
      some ("812409", ["visit_type"]) ∧
    ("site_number (extracted from filename)" ∉
      (reportOf extractC5).data_quality.fields_missing) ∧
    gapFillSiteNumber none "Wang_812409_20250402.docx" =
      ("812409", ["site_number (extracted from filename)"]) ∧
    gapFillSiteNumber none "report20250402.docx" = ("000000", ["site_number"]) := by
  refine ⟨?_, ?_, ?_, ?_⟩
  · with_unfolding_all rfl
  · exact of_decide_eq_false (by with_unfolding_all rfl)
  · decide
  · decide

/-! ### C6 -/

/-- C6 (counterexample): batch 61-75 throwing while the other five batches
return their complete ranges yields a report with zero questions numbered
61-75 but exactly 70 questions in total — not fewer than 70 — so with a
complete header `requires_review` is `false` and no review reason is
recorded, contrary to the claim's example. -/
theorem c6_counterexample :
    (extractReportChunked hdrOk (mergeQuestions c6Res) [] assessOk
        "Wang_772412_20250528.docx" "2025-06-01T00:00:00"
        "gpt-5-chat").toOption.map
      (fun r => ((r.question_responses.filter fun q =>
          decide (61 ≤ q.question_number) && decide (q.question_number ≤ 75)).length,
        r.question_responses.length,
        r.data_quality.requires_review,
        r.data_quality.review_reason)) =
      some (0, 70, false, none) := by
  with_unfolding_all rfl

/-- Helper: batches that contribute no questions can be dropped from the
flattened merge input. -/
theorem flatten_filter_of_empty {α : Type} (f : α → List QuestionResponse)
    (P : α → Bool) :
    ∀ l : List α, (∀ p ∈ l, P p = false → f p = []) →
      (l.map f).flatten = ((l.filter P).map f).flatten := by
  intro l
  induction l with
  | nil => intro _; rfl
  | cons a l ih =>
    intro hl
    by_cases hPa : P a = true
    · simp only [List.map_cons, List.flatten_cons, List.filter_cons, hPa,
        if_true]
      rw [ih fun p hp h => hl p (List.mem_cons_of_mem a hp) h]
    · have ha : f a = [] := hl a (List.mem_cons_self a l)
        (Bool.not_eq_true _ ▸ by simpa using hPa)
      simp only [List.map_cons, List.flatten_cons, ha, List.nil_append,
        List.filter_cons]
      rw [if_neg (by simpa using hPa)]
      exact ih fun p hp h => hl p (List.mem_cons_of_mem a hp) h

/-- Helper: distinct batch ranges are separated. -/
theorem batchRanges_sep : ∀ r1 ∈ batchRanges, ∀ r2 ∈ batchRanges,
    r1 ≠ r2 → r1.2 < r2.1 ∨ r2.2 < r1.1 := by decide

/-- C6 (amended): provided every batch returns questions within its assigned
range (the batch output contract), if any one of the six batches raises then
the merged list contains zero questions in that batch's range, the other
batches' questions are merged unaffected (the merge is a permutation of the
concatenation of the surviving batches' outputs), whatever the completion
order; and in the claim's example — batch 61-75 failing with the five other
batches complete — the merged report holds exactly 70 questions, not fewer
than 70, so the question-count review condition is not triggered. -/
theorem c6_batch_failure_isolated (res : List BatchResult) (lo hi : Nat)
    (hperm : List.Perm (res.map Prod.fst) batchRanges)
    (hmem : (lo, hi) ∈ batchRanges)
    (hfail : ∀ p ∈ res, p.1 = (lo, hi) → ∃ e, p.2 = Except.error e)
    (hrange : ∀ p ∈ res, ∀ q ∈ batchQuestions p.2,
      p.1.1 ≤ q.question_number ∧ q.question_number ≤ p.1.2) :
    (∀ q ∈ mergeQuestions res,
      ¬ (lo ≤ q.question_number ∧ q.question_number ≤ hi)) ∧
    List.Perm (mergeQuestions res)
      (((res.filter fun p => p.1 ≠ (lo, hi)).map fun p =>
        batchQuestions p.2).flatten) ∧
    ((lo, hi) = (61, 75) →
      (∀ p ∈ res, p.1 ≠ (61, 75) →
        (batchQuestions p.2).length = p.1.2 + 1 - p.1.1) →
      (mergeQuestions res).length = 70 ∧ ¬ ((mergeQuestions res).length < 70)) := by
  classical
  have hempty : ∀ p ∈ res, p.1 = (lo, hi) → batchQuestions p.2 = [] := by
    intro p hp hpeq
    obtain ⟨e, he⟩ := hfail p hp hpeq
    rw [he]
    rfl
  have hflat : ((res.map fun p => batchQuestions p.2).flatten) =
      (((res.filter fun p => p.1 ≠ (lo, hi)).map fun p =>
        batchQuestions p.2).flatten) := by
    apply flatten_filter_of_empty (fun p => batchQuestions p.2)
      (fun p => decide (p.1 ≠ (lo, hi))) res
    intro p hp h
    have hpeq : p.1 = (lo, hi) := by simpa using h
    exact hempty p hp hpeq
  have hsortperm : List.Perm (mergeQuestions res)
      ((res.map fun p => batchQuestions p.2).flatten) :=
    List.perm_insertionSort qle _
  refine ⟨?_, ?_, ?_⟩
  · intro q hq hbad
    have hq2 : q ∈ (res.map fun p => batchQuestions p.2).flatten :=
      hsortperm.mem_iff.mp hq
    rw [List.mem_flatten] at hq2
    obtain ⟨l, hl, hql⟩ := hq2
    rcases List.mem_map.mp hl with ⟨p, hp, rfl⟩
    by_cases hpeq : p.1 = (lo, hi)
    · rw [hempty p hp hpeq] at hql
      exact absurd hql (List.not_mem_nil q)
    · have hp1 : p.1 ∈ batchRanges :=
        hperm.mem_iff.mp (List.mem_map_of_mem Prod.fst hp)
      have hsep := batchRanges_sep p.1 hp1 (lo, hi) hmem hpeq
      have hb := hrange p hp q hql
      rcases hsep with h | h
      · omega
      · omega
  · exact hflat ▸ hsortperm
  · rintro ⟨rfl, rfl⟩ hcomplete
    have hlen : (mergeQuestions res).length =
        (((res.filter fun p => p.1 ≠ (61, 75)).map fun p =>
          batchQuestions p.2).flatten).length :=
      (hflat ▸ hsortperm).length_eq
    rw [List.length_flatten, List.map_map] at hlen
    have hmapeq : ((res.filter fun p => p.1 ≠ (61, 75)).map
          (List.length ∘ fun p => batchQuestions p.2)) =
        ((res.filter fun p => p.1 ≠ (61, 75)).map fun p =>
          p.1.2 + 1 - p.1.1) := by
      apply List.map_congr_left
      intro p hp
      have hp2 := List.mem_filter.mp hp
      exact hcomplete p hp2.1 (by simpa using hp2.2)
    rw [hmapeq] at hlen
    have hfactor : ((res.filter fun p => p.1 ≠ (61, 75)).map fun p =>
        p.1.2 + 1 - p.1.1) =
        (((res.map Prod.fst).filter fun rg => rg ≠ (61, 75)).map fun rg =>
          rg.2 + 1 - rg.1) := by
      rw [List.filter_map]
      rw [List.map_map]
      rfl
    have hsum : (((res.map Prod.fst).filter fun rg => rg ≠ (61, 75)).map
          fun rg : Nat × Nat => rg.2 + 1 - rg.1).sum =
        ((batchRanges.filter fun rg => rg ≠ (61, 75)).map
          fun rg : Nat × Nat => rg.2 + 1 - rg.1).sum :=
      ((hperm.filter fun rg => decide (rg ≠ (61, 75))).map
        fun rg : Nat × Nat => rg.2 + 1 - rg.1).sum_eq
    have hconcrete : ((batchRanges.filter fun rg => rg ≠ (61, 75)).map
        fun rg : Nat × Nat => rg.2 + 1 - rg.1).sum = 70 := by decide
    rw [hfactor, hsum, hconcrete] at hlen
    exact ⟨hlen, by omega⟩

/-- C6 (witness): the isolation theorem applied to the concrete shuffled
completion order in which batch 61-75 failed and the five other batches are
complete. -/
theorem c6_witness :
    (∀ q ∈ mergeQuestions c6Res,
      ¬ (61 ≤ q.question_number ∧ q.question_number ≤ 75)) ∧
    List.Perm (mergeQuestions c6Res)
      (((c6Res.filter fun p => p.1 ≠ (61, 75)).map fun p =>
        batchQuestions p.2).flatten) ∧
    ((61, 75) = (61, 75) →
      (∀ p ∈ c6Res, p.1 ≠ (61, 75) →
        (batchQuestions p.2).length = p.1.2 + 1 - p.1.1) →
      (mergeQuestions c6Res).length = 70 ∧ ¬ ((mergeQuestions c6Res).length < 70)) :=
  c6_batch_failure_isolated c6Res 61 75 (by decide) (by decide) (by decide)
    (by decide)

/-! ### C7 -/

/-- Helper: the length of a guarded `filterMap` is the count of the guard. -/
theorem length_filterMap_guard {α β : Type} (p : α → Bool) (f : α → β) :
    ∀ l : List α,
      (l.filterMap fun a => if p a then some (f a) else none).length = l.countP p := by
  intro l
  induction l with
  | nil => rfl
  | cons a l ih =>
    by_cases hp : p a <;>
      simp [List.filterMap_cons, hp, ih, List.countP_cons]

/-- C7 (counterexample): a report whose only `No`-answered question carries an
empty-string (hence non-null) key finding and whose only true risk flag is
`impact_study_level` has an empty `critical_findings` list, while the claim
requires two entries: the code skips falsy key findings and never consults the
impact flags. -/
theorem c7_counterexample :
    (criticalFindings reportC7).length = 0 ∧ specCriticalCount reportC7 = 2 := by
  constructor
  · decide
  · decide

/-- C7 (amended): `critical_findings` holds exactly one entry per question
answered `No` whose `key_finding` is non-null and non-empty, plus one entry
each for `site_level_risks_identified` and `cra_level_risks_identified` when
true; the `impact_country_level` and `impact_study_level` flags contribute
nothing. -/
theorem c7_critical_findings (r : MOVReport) (b₁ b₂ : Bool) :
    (criticalFindings r).length =
      r.question_responses.countP isCritical +
      (if r.risk_assessment.site_level_risks_identified then 1 else 0) +
      (if r.risk_assessment.cra_level_risks_identified then 1 else 0) ∧
    criticalFindings
      { r with risk_assessment :=
        { r.risk_assessment with
          impact_country_level := b₁, impact_study_level := b₂ } } =
      criticalFindings r := by
  constructor
  · unfold criticalFindings
    rw [List.length_append, List.length_append, length_filterMap_guard]
    by_cases h1 : r.risk_assessment.site_level_risks_identified <;>
      by_cases h2 : r.risk_assessment.cra_level_risks_identified <;>
        simp [h1, h2]
  · rfl

/-! ### C8 -/

/-- Helper: enum round-trip for answers. -/
theorem answer_roundtrip (a : AnswerType) : AnswerType.ofString? a.value = some a := by
  cases a <;> rfl

/-- Helper: enum round-trip for sentiments. -/
theorem sentiment_roundtrip (s : SentimentType) :
    SentimentType.ofString? s.value = some s := by
  cases s <;> rfl

/-- Helper: round-trip of nullable strings. -/
theorem optStr_roundtrip (o : Option String) : (encodeOptStr o).getOptStr? = some o := by
  cases o <;> rfl

/-- Helper: round-trip of the optional visit type. -/
theorem visitType_roundtrip (v : Option VisitType) :
    decodeVisitType (encodeVisitType v) = some v := by
  cases v with
  | none => rfl
  | some v => cases v <;> rfl

/-- Helper: round-trip of string arrays. -/
theorem strList_roundtrip (l : List String) :
    (JVal.jarr (l.map JVal.jstr)).getStrList? = some l := by
  simp only [JVal.getStrList?]
  induction l with
  | nil => rfl
  | cons a l ih => simp [decodeList, JVal.getStr?, ih]

/-- Helper: round-trip of question responses. -/
theorem question_roundtrip (q : QuestionResponse) :
    decodeQuestion (encodeQuestion q) = some q := by
  simp [decodeQuestion, encodeQuestion, natField, intField, strField,
    optStrField, ratField, JVal.field?, List.lookup, JVal.getStr?,
    JVal.getInt?, JVal.getRat?, optStr_roundtrip, answer_roundtrip,
    sentiment_roundtrip, Int.toNat']

/-- Helper: round-trip of action items. -/
theorem actionItem_roundtrip (a : ActionItem) :
    decodeActionItem (encodeActionItem a) = some a := by
  simp [decodeActionItem, encodeActionItem, natField, intField, strField,
    optStrField, JVal.field?, List.lookup, JVal.getStr?, JVal.getInt?,
    optStr_roundtrip, Int.toNat']

/-- Helper: round-trip of site info. -/
theorem siteInfo_roundtrip (si : SiteInfo) :
    decodeSiteInfo (encodeSiteInfo si) = some si := by
  simp [decodeSiteInfo, encodeSiteInfo, strField, optStrField, JVal.field?,
    List.lookup, JVal.getStr?, optStr_roundtrip]

/-- Helper: round-trip of recruitment statistics. -/
theorem recruitment_roundtrip (rs : RecruitmentStats) :
    decodeRecruitment (encodeRecruitment rs) = some rs := by
  simp [decodeRecruitment, encodeRecruitment, intField, JVal.field?,
    List.lookup, JVal.getInt?]

/-- Helper: round-trip of risk assessments. -/
theorem risk_roundtrip (ra : RiskAssessment) :
    decodeRisk (encodeRisk ra) = some ra := by
  simp [decodeRisk, encodeRisk, boolField, strField, JVal.field?, List.lookup,
    JVal.getBool?, JVal.getStr?]

/-- Helper: round-trip of the data-quality flags, given the score bounds that
re-validation checks. -/
theorem dq_roundtrip (dq : DataQualityFlags)
    (hlo : 0 ≤ dq.completeness_score) (hhi : dq.completeness_score ≤ 1) :
    decodeDq (encodeDq dq) = some dq := by
  simp [decodeDq, encodeDq, strListField, ratField, boolField, optStrField,
    JVal.field?, List.lookup, JVal.getRat?, JVal.getBool?, strList_roundtrip,
    optStr_roundtrip, hlo, hhi]

/-- Helper: round-trip of encoded element lists. -/
theorem decodeList_encode {α : Type} (dec : JVal → Option α) (enc : α → JVal)
    (hde : ∀ a, dec (enc a) = some a) :
    ∀ l : List α, decodeList dec (l.map enc) = some l := by
  intro l
  induction l with
  | nil => rfl
  | cons a l ih => simp [decodeList, hde, ih]

/-- Helper: rebuilding a valid report from its own fields validates to the
same value. -/
theorem mkMOVReport_fields (r : MOVReport) (hv : reportValid r = true) :
    mkMOVReport r.protocol_number r.site_info r.visit_start_date
      r.visit_end_date r.visit_type r.recruitment_stats r.question_responses
      r.action_items r.risk_assessment r.overall_site_quality r.key_concerns
      r.key_strengths r.data_quality r.extraction_timestamp r.llm_model
      r.extraction_method r.source_file = .ok r := by
  unfold reportValid at hv
  simp only [Bool.and_eq_true, decide_eq_true_eq, Bool.not_eq_true] at hv
  obtain ⟨⟨⟨⟨⟨⟨⟨⟨⟨⟨hp, hsn⟩, hrs⟩, hqe⟩, hqa⟩, hai⟩, hq⟩, hkc⟩, hks⟩, hlo⟩, hhi⟩ := hv
  have hne : r.question_responses ≠ [] := by simpa using hqe
  unfold mkMOVReport
  simp [hp, hsn, hrs, hqe, hqa, hai, hq, hkc, hks, hne, Nat.not_lt.mpr hkc,
    Nat.not_lt.mpr hks]

/-- Helper: serializing a valid report and re-validating the JSON yields the
same report value. -/
theorem decode_encode (r : MOVReport) (hv : reportValid r = true) :
    decodeReport (encodeReport r) = some r := by
  have hlo : 0 ≤ r.data_quality.completeness_score := by
    unfold reportValid at hv
    simp only [Bool.and_eq_true, decide_eq_true_eq] at hv
    exact hv.1.2
  have hhi : r.data_quality.completeness_score ≤ 1 := by
    unfold reportValid at hv
    simp only [Bool.and_eq_true, decide_eq_true_eq] at hv
    exact hv.2
  simp [decodeReport, encodeReport, strField, optStrField, strListField,
    JVal.field?, List.lookup, JVal.getStr?, JVal.getArr?, siteInfo_roundtrip,
    optStr_roundtrip, visitType_roundtrip, recruitment_roundtrip,
    risk_roundtrip, dq_roundtrip r.data_quality hlo hhi, strList_roundtrip,
    decodeList_encode decodeQuestion encodeQuestion question_roundtrip,
    decodeList_encode decodeActionItem encodeActionItem actionItem_roundtrip,
    mkMOVReport_fields r hv, Except.toOption]

/-- Helper: upserting makes the row retrievable by its primary key. -/
theorem lookup_upsert_self (db : ReportTable) (rec : DbRecord) :
    (upsertRecord db rec).lookup rec.id = some rec := by
  induction db with
  | nil => simp [upsertRecord, List.lookup]
  | cons kv rest ih =>
    obtain ⟨k, r⟩ := kv
    by_cases hk : k = rec.id
    · simp [upsertRecord, hk, List.lookup]
    · have hk2 : ¬ (rec.id = k) := fun h => hk h.symm
      have hb : (rec.id == k) = false := beq_eq_false_iff_ne.mpr hk2
      simp [upsertRecord, hk, List.lookup, hb, ih]

/-- C8 (counterexample): the SQLite store substitutes nothing for an unknown
visit start date — saving such a report raises (`datetime.fromisoformat(None)`
is a `TypeError`), and nothing is readable under the claimed
`{site_number}_UNKNOWN` key. -/
theorem c8_counterexample :
    saveReport [] { reportC8 with visit_start_date := none } =
      .error "fromisoformat: argument must be str" ∧
    getReport [] "812409_UNKNOWN" = none := by
  constructor
  · rfl
  · rfl

/-- C8 (amended): in the SQLite store the natural key is
`{site_number}_{visit_start_date}` with no `"UNKNOWN"` substitution (only the
PostgreSQL store substitutes); saving a report whose visit start date is
unknown raises instead.  For a valid report with a well-formed visit start
date, save is an upsert at that key, reading the key back yields a report
equal in all fields to the original, and a second save under the same key
replaces the first. -/
theorem c8_roundtrip_upsert (db : ReportTable) (r r₂ : MOVReport) (d : String)
    (hv : reportValid r = true) (hd : r.visit_start_date = some d)
    (hiso : isoDateOk d = true)
    (hv2 : reportValid r₂ = true) (hd2 : r₂.visit_start_date = some d)
    (hsn : r₂.site_info.site_number = r.site_info.site_number) :
    (∀ r₀ : MOVReport, r₀.visit_start_date = none →
      ∀ db₀ : ReportTable, ∃ e, saveReport db₀ r₀ = .error e) ∧
    ∃ db₁ db₂,
      saveReport db r = .ok (db₁, r.site_info.site_number ++ "_" ++ d) ∧
      getReport db₁ (r.site_info.site_number ++ "_" ++ d) = some r ∧
      saveReport db₁ r₂ = .ok (db₂, r.site_info.site_number ++ "_" ++ d) ∧
      getReport db₂ (r.site_info.site_number ++ "_" ++ d) = some r₂ := by
  constructor
  · intro r₀ h0 db₀
    refine ⟨"fromisoformat: argument must be str", ?_⟩
    unfold saveReport
    rw [h0]
  · refine ⟨upsertRecord db (dbRecordOf r d),
      upsertRecord (upsertRecord db (dbRecordOf r d)) (dbRecordOf r₂ d),
      ?_, ?_, ?_, ?_⟩
    · unfold saveReport
      rw [hd]
      simp [hiso]
    · unfold getReport
      have hl := lookup_upsert_self db (dbRecordOf r d)
      have hid : (dbRecordOf r d).id = r.site_info.site_number ++ "_" ++ d := rfl
      rw [hid] at hl
      rw [hl]
      simp [dbRecordOf, decode_encode r hv]
    · unfold saveReport
      rw [hd2]
      simp [hiso, hsn]
    · unfold getReport
      have hl := lookup_upsert_self (upsertRecord db (dbRecordOf r d)) (dbRecordOf r₂ d)
      have hid : (dbRecordOf r₂ d).id = r.site_info.site_number ++ "_" ++ d := by
        unfold dbRecordOf
        rw [hsn]
      rw [hid] at hl
      rw [hl]
      simp [dbRecordOf, decode_encode r₂ hv2]

/-- C8 (witness): a concrete valid report saved to the empty store, read back,
then overwritten by its re-extraction under the same natural key. -/
theorem c8_witness :
    (∀ r₀ : MOVReport, r₀.visit_start_date = none →
      ∀ db₀ : ReportTable, ∃ e, saveReport db₀ r₀ = .error e) ∧
    ∃ db₁ db₂,
      saveReport [] reportC8 =
        .ok (db₁, reportC8.site_info.site_number ++ "_" ++ "2025-04-02") ∧
      getReport db₁ (reportC8.site_info.site_number ++ "_" ++ "2025-04-02") =
        some reportC8 ∧
      saveReport db₁ reportC8v2 =
        .ok (db₂, reportC8.site_info.site_number ++ "_" ++ "2025-04-02") ∧
      getReport db₂ (reportC8.site_info.site_number ++ "_" ++ "2025-04-02") =
        some reportC8v2 :=
  c8_roundtrip_upsert [] reportC8 reportC8v2 "2025-04-02"
    (by with_unfolding_all rfl) rfl (by decide)
    (by with_unfolding_all rfl) rfl rfl
